import Mathlib

/-!
Verification of the intent-orchestra-nexus query-routing / orchestration layer
and its tiered memory store, as a shallow embedding in Lean 4.

Sources embedded (paths relative to the repository root):
- src/backend/src/agents/ParkAgent.js        (class BaseAgent, first version:
  execute, calculateRelevanceScore, calculateConfidence, isRelevant)
- src/backend/src/services/LangGraphOrchestrator.js
  (processQuery, analyzeQuery, routeAgents, aggregateResponses)
- src/backend/src/services/AuthService.js    (class MemoryManager:
  getRelevantContext, getMemoryStats, deleteUserData)
- src/backend/src/config/database.js         (the default agent registry)
- src/unnamed/part_002                       (class MemoryService: storeInSTM)

Modelling conventions:
- JS numbers are modelled as Nat (relevance scores, lengths, timestamps) and
  as Rat (confidence values); arithmetic is exact.
- JS strings are Lean Strings; String.prototype.toLowerCase and
  String.prototype.includes are modelled character-wise below.
- Wall-clock time (Date.now) is an explicit Nat parameter; generated uuids and
  execution-time measurements are omitted: no embedded property depends on them.
- Fallible external calls (MySQL, Ollama) are oracle parameters of type Except,
  one per call site; a JS throw is an Except.error value and try/catch is a
  match on it.
- JS Array.prototype.sort is stable (ECMAScript 2019); a stable sort by a total
  preorder is unique, and is embedded as Mathlib List.insertionSort, whose
  stability is recorded by List.pair_sublist_insertionSort.
-/

/-! ## JS string primitives -/

/-- Does the second list occur as a prefix of the first? -/
def listStartsWith : List Char → List Char → Bool
  | _, [] => true
  | [], _ :: _ => false
  | h :: hs, n :: ns => h == n && listStartsWith hs ns

/-- Does the second list occur contiguously inside the first? -/
def listContainsSeq : List Char → List Char → Bool
  | [], needle => needle.isEmpty
  | h :: t, needle => listStartsWith (h :: t) needle || listContainsSeq t needle

/-- JS String.prototype.includes(needle): substring containment. -/
def jsIncludes (hay needle : String) : Bool :=
  listContainsSeq hay.data needle.data

/-- JS String.prototype.toLowerCase, character-wise (the embedded keyword data
is ASCII, where this agrees with JS). -/
def jsToLowerCase (s : String) : String :=
  String.mk (s.data.map Char.toLower)

/-! ## Agent configuration (src/backend/src/config/database.js, loadDefaultAgents)

An AgentConfig is the slice of a row of the agents table that the routing and
scoring logic reads: id, name, topic type, keyword list, priority. The
description, capabilities and system prompt fields are configuration for prompt
construction only and are not consulted by any embedded function. -/

structure AgentConfig where
  id : String
  name : String
  type : String
  keywords : List String
  priority : Nat
  deriving Repr, DecidableEq

/-- The scenic agent of loadDefaultAgents (database.js). -/
def scenicAgentConfig : AgentConfig :=
  { id := "scenic-agent", name := "Scenic Agent", type := "scenic"
    keywords := ["scenic", "beautiful", "view", "tourist", "attraction", "place",
      "visit", "sightseeing", "landscape", "mountain", "hill", "sunset",
      "sunrise", "photography"]
    priority := 1 }

/-- The river agent of loadDefaultAgents (database.js). -/
def riverAgentConfig : AgentConfig :=
  { id := "river-agent", name := "River Agent", type := "river"
    keywords := ["river", "water", "lake", "stream", "waterfall", "aquatic",
      "fishing", "boating", "swimming", "dam", "reservoir", "creek", "pond"]
    priority := 2 }

/-- The park agent of loadDefaultAgents (database.js). -/
def parkAgentConfig : AgentConfig :=
  { id := "park-agent", name := "Park Agent", type := "park"
    keywords := ["park", "playground", "recreation", "outdoor", "picnic",
      "garden", "trail", "hiking", "walking", "family", "children", "sports",
      "camping"]
    priority := 3 }

/-- The search agent of loadDefaultAgents (database.js). -/
def searchAgentConfig : AgentConfig :=
  { id := "search-agent", name := "Search Agent", type := "search"
    keywords := ["past", "history", "previous", "remember", "before", "earlier",
      "search", "find", "show me my"]
    priority := 4 }

/-- The default registry, in insertion order (database.js loadDefaultAgents;
loadAgentsFromDB loads those enabled, ordered by ascending priority, into the
Map of LangGraphOrchestrator.agents). -/
def defaultAgents : List AgentConfig :=
  [scenicAgentConfig, riverAgentConfig, parkAgentConfig, searchAgentConfig]

/-! ## BaseAgent (src/backend/src/agents/ParkAgent.js, class BaseAgent, first
version, lines 62-253 of the concatenated file) -/

/-- The answer record built by BaseAgent.execute. The executionTime, token
counts, model and timestamp fields of the JS object are omitted (wall-clock
and model metadata, not consulted by any embedded logic). -/
structure AgentResponse where
  agentId : String
  agentName : String
  response : String
  confidence : Rat
  relevanceScore : Nat
  error : Option String
  deriving Repr, DecidableEq

namespace BaseAgent

/-- The keyword matches of calculateRelevanceScore and calculateConfidence:
keywords whose lower-cased text occurs in the lower-cased query. -/
def matchedKeywords (cfg : AgentConfig) (query : String) : List String :=
  cfg.keywords.filter (fun k => jsIncludes (jsToLowerCase query) (jsToLowerCase k))

/-- BaseAgent.calculateRelevanceScore (ParkAgent.js lines 169-187): one point
per keyword found in the lower-cased query, plus 2 if the query contains the
agent type verbatim, clamped into 1..10. -/
def calculateRelevanceScore (cfg : AgentConfig) (query : String) : Nat :=
  let score := (matchedKeywords cfg query).length
    + (if jsIncludes (jsToLowerCase query) cfg.type then 2 else 0)
  min (max score 1) 10

/-- BaseAgent.isRelevant (ParkAgent.js lines 214-226): a keyword match or a
type match. -/
def isRelevant (cfg : AgentConfig) (query : String) : Bool :=
  cfg.keywords.any (fun k => jsIncludes (jsToLowerCase query) (jsToLowerCase k))
    || jsIncludes (jsToLowerCase query) cfg.type

/-- The specificity markers calculateConfidence looks for in the produced
text (case-sensitive, as in the source). -/
def hasSpecificity (response : String) : Bool :=
  jsIncludes response "specific" || jsIncludes response "located"
    || jsIncludes response "features"

/-- BaseAgent.calculateConfidence (ParkAgent.js lines 189-212), mirroring the
sequential += updates of the source. -/
def calculateConfidence (cfg : AgentConfig) (query response : String) : Rat :=
  let confidence : Rat := 6/10
  let confidence := confidence + ((matchedKeywords cfg query).length : Rat) * (5/100)
  let confidence := if 200 < response.length then confidence + 1/10 else confidence
  let confidence := if 500 < response.length then confidence + 1/10 else confidence
  let confidence := if hasSpecificity response then confidence + 1/10 else confidence
  min (max confidence (1/10)) 1

/-- The outcome of the OllamaService.generateResponse call inside execute:
either the generated content or a thrown error carrying its message. -/
abbrev GenOutcome := Except String String

/-- The fallback text of the catch branch of execute. -/
def fallbackResponseText (cfg : AgentConfig) : String :=
  "I apologize, but I encountered an error while processing your query about "
    ++ cfg.type
    ++ " topics. Please try again or rephrase your question."

/-- BaseAgent.execute (ParkAgent.js lines 91-149). The context argument stands
for the combined context list (caller context plus the memory fetch, which
never throws: MemoryManager.getRelevantContext catches internally); it feeds
only the prompt, so the answer fields do not depend on it. The gen argument
is the outcome of the Ollama call; the catch branch builds the degraded
answer with confidence 0.1, relevanceScore 1 and the thrown message. -/
def execute (cfg : AgentConfig) (query : String) (_context : List String)
    (gen : GenOutcome) : AgentResponse :=
  match gen with
  | Except.ok content =>
      { agentId := cfg.id
        agentName := cfg.name
        response := content
        confidence := calculateConfidence cfg query content
        relevanceScore := calculateRelevanceScore cfg query
        error := none }
  | Except.error msg =>
      { agentId := cfg.id
        agentName := cfg.name
        response := fallbackResponseText cfg
        confidence := 1/10
        relevanceScore := 1
        error := some msg }

end BaseAgent

/-! ## Ordering used by the orchestrator sorts

JS Array.prototype.sort with comparator (a, b) => b.relevanceScore -
a.relevanceScore is a stable sort in which x may precede y exactly when
x.relevanceScore >= y.relevanceScore. -/

/-- x may precede y in a sort descending by the key f. -/
def byScoreDesc {α : Type} (f : α → Nat) (x y : α) : Prop :=
  f y ≤ f x

instance {α : Type} (f : α → Nat) : DecidableRel (byScoreDesc f) :=
  fun x y => inferInstanceAs (Decidable (f y ≤ f x))

instance {α : Type} (f : α → Nat) : IsTotal α (byScoreDesc f) :=
  ⟨fun x y => le_total (f y) (f x)⟩

instance {α : Type} (f : α → Nat) : IsTrans α (byScoreDesc f) :=
  ⟨fun _ _ _ hxy hyz => le_trans hyz hxy⟩

/-! ## Router and aggregation
(src/backend/src/services/LangGraphOrchestrator.js) -/

/-- One element of the relevantAgents array of routeAgents. -/
structure RoutedAgent where
  agent : AgentConfig
  relevanceScore : Nat
  deriving Repr, DecidableEq

namespace LangGraphOrchestrator

/-- The relevantAgents array of routeAgents just before the final sort
(LangGraphOrchestrator.js lines 124-156): the agents deemed relevant with
their calculated scores, in registry insertion order; then the search agent
appended with score 1 when registered and not already present; then, if still
empty, the scenic agent alone with score 1. -/
def selectAgents (registry : List AgentConfig) (query : String) : List RoutedAgent :=
  let matched := (registry.filter (fun a => BaseAgent.isRelevant a query)).map
    (fun a => ({ agent := a, relevanceScore := BaseAgent.calculateRelevanceScore a query } : RoutedAgent))
  let withSearch :=
    match registry.find? (fun a => a.id == "search-agent") with
    | some searchAgent =>
        if matched.any (fun ra => ra.agent.id == "search-agent") then matched
        else matched ++ [({ agent := searchAgent, relevanceScore := 1 } : RoutedAgent)]
    | none => matched
  if withSearch.isEmpty then
    match registry.find? (fun a => a.id == "scenic-agent") with
    | some scenicAgent => [({ agent := scenicAgent, relevanceScore := 1 } : RoutedAgent)]
    | none => []
  else withSearch

/-- LangGraphOrchestrator.routeAgents (lines 121-164): the selection above,
stably sorted descending by relevanceScore (the comparator reads only
relevanceScore; priority is not consulted). -/
def routeAgents (registry : List AgentConfig) (query : String) : List RoutedAgent :=
  List.insertionSort (byScoreDesc RoutedAgent.relevanceScore) (selectAgents registry query)

/-- The ConversationResult built by aggregateResponses (lines 189-214).
queryId (a uuid), timestamp and totalExecutionTime (wall clock) are omitted. -/
structure ConversationResult where
  userId : String
  sessionId : String
  query : String
  responses : List AgentResponse
  agentCount : Nat
  deriving Repr, DecidableEq

/-- LangGraphOrchestrator.aggregateResponses (lines 189-214), pure part: the
responses array is stably sorted descending by relevanceScore and packaged
into the ConversationResult. No answer is filtered out, error-flagged or not.
(The subsequent storeQueryResult persistence call is modelled separately in
processQuery, as its outcome oracle.) -/
def aggregateResponses (query userId sessionId : String)
    (responses : List AgentResponse) : ConversationResult :=
  let sortedResponses :=
    List.insertionSort (byScoreDesc AgentResponse.relevanceScore) responses
  { userId := userId
    sessionId := sessionId
    query := query
    responses := sortedResponses
    agentCount := sortedResponses.length }

end LangGraphOrchestrator

/-! ## MemoryManager (src/backend/src/services/AuthService.js, second class) -/

/-- A row of the memory_entries table, restricted to the columns the embedded
queries read: user_id, type, content, relevance_score, expires_at, timestamp.
(id, session_id, conversation_id, metadata, agent_id and embedding_vector are
written but never branched on by the embedded functions.) -/
structure MemRow where
  userId : String
  kind : String
  content : String
  relevanceScore : Nat
  expiresAt : Option Nat
  timestamp : Nat
  deriving Repr, DecidableEq

/-- A row of the conversations table (columns the embedded queries read). -/
structure ConvRow where
  userId : String
  totalExecutionTime : Nat
  agentCount : Nat
  timestamp : Nat
  deriving Repr, DecidableEq

/-- A row of the agent_interactions table (only ownership is queried). -/
structure InteractionRow where
  userId : String
  deriving Repr, DecidableEq

/-- A row of the user_sessions table (only ownership is queried). -/
structure SessionRow where
  userId : String
  deriving Repr, DecidableEq

/-- The MySQL state the MemoryManager owns. -/
structure Database where
  memoryEntries : List MemRow
  conversations : List ConvRow
  agentInteractions : List InteractionRow
  userSessions : List SessionRow
  deriving Repr, DecidableEq

/-- The context entry shape getRelevantContext maps rows to
(id and metadata omitted). -/
structure CtxEntry where
  kind : String
  content : String
  timestamp : Nat
  deriving Repr, DecidableEq

namespace MemoryManager

/-- The outcomes of the two possible mysql.execute SELECT calls inside
getRelevantContext: the recent-entries query (no qualifying keyword) and the
keyword-match query. A connection or query failure is an Except.error. -/
structure StoreIO where
  recentRows : Except String (List MemRow)
  keywordRows : Except String (List MemRow)

/-- MemoryManager.getRelevantContext (AuthService.js lines 480-520): tokenize
the lower-cased query into words longer than 2 characters, run one of two
SELECTs (the WHERE filtering happens in the store, so the selected rows are
the oracle value), and map the rows; the surrounding try/catch turns any
store failure into the empty context list. -/
def getRelevantContext (_userId query : String) (io : StoreIO) : List CtxEntry :=
  let keywords := ((jsToLowerCase query).splitOn " ").filter (fun w => 2 < w.length)
  let outcome := if keywords.isEmpty then io.recentRows else io.keywordRows
  match outcome with
  | Except.ok rows => rows.map (fun r => { kind := r.kind, content := r.content, timestamp := r.timestamp })
  | Except.error _ => []

/-- Per-tier counts of getMemoryStats. -/
structure TierStats where
  totalEntries : Nat
  queries : Nat
  responses : Nat
  oldestEntry : Option Nat
  deriving Repr, DecidableEq

/-- Conversation aggregates of getMemoryStats. -/
structure ConvStats where
  total : Nat
  avgExecutionTime : Rat
  avgAgentsPerQuery : Rat
  deriving Repr, DecidableEq

/-- The record getMemoryStats returns. -/
structure MemoryStats where
  stm : TierStats
  ltm : TierStats
  conversations : ConvStats
  deriving Repr, DecidableEq

/-- The three SQL aggregate queries of MemoryManager.getMemoryStats
(AuthService.js lines 523-570): STM rows are the user rows with a non-null,
still-future expires_at; LTM rows those with a null expires_at; conversation
aggregates count the user conversations. The JS Math.round display rounding
of the averages is left exact here. -/
def getMemoryStats (db : Database) (userId : String) (now : Nat) : MemoryStats :=
  let stmRows := db.memoryEntries.filter
    (fun r => r.userId == userId && (match r.expiresAt with | some t => decide (now < t) | none => false))
  let ltmRows := db.memoryEntries.filter
    (fun r => r.userId == userId && r.expiresAt.isNone)
  let convRows := db.conversations.filter (fun c => c.userId == userId)
  let tier := fun (rows : List MemRow) =>
    ({ totalEntries := rows.length
       queries := (rows.filter (fun r => r.kind == "query")).length
       responses := (rows.filter (fun r => r.kind == "response")).length
       oldestEntry := (rows.map MemRow.timestamp).min? } : TierStats)
  { stm := tier stmRows
    ltm := tier ltmRows
    conversations :=
      { total := convRows.length
        avgExecutionTime :=
          if convRows.length = 0 then 0
          else ((convRows.map ConvRow.totalExecutionTime).sum : Rat) / (convRows.length : Rat)
        avgAgentsPerQuery :=
          if convRows.length = 0 then 0
          else ((convRows.map ConvRow.agentCount).sum : Rat) / (convRows.length : Rat) } }

/-- MemoryManager.deleteUserData (AuthService.js lines 591-605): DELETE every
row of the four tables whose user_id is the given user. -/
def deleteUserData (db : Database) (userId : String) : Database :=
  { memoryEntries := db.memoryEntries.filter (fun r => !(r.userId == userId))
    conversations := db.conversations.filter (fun c => !(c.userId == userId))
    agentInteractions := db.agentInteractions.filter (fun i => !(i.userId == userId))
    userSessions := db.userSessions.filter (fun s => !(s.userId == userId)) }

end MemoryManager

/-! ## MemoryService short-term store (src/unnamed/part_002) -/

/-- A stored short-term MemoryEntry as storeInSTM builds it: the caller data
(kind and content stand for the type/content payload), the write timestamp,
and the expiry seven days later. The generated id string is omitted. -/
structure StoredSTMEntry where
  kind : String
  content : String
  timestamp : Nat
  expiresAt : Nat
  deriving Repr, DecidableEq

/-- 7 * 24 * 60 * 60 * 1000 milliseconds. -/
def sevenDaysMs : Nat := 7 * 24 * 60 * 60 * 1000

/-- One storeInSTM call: the user, the entry payload, and Date.now() at the
moment of the call. -/
structure STMOp where
  userId : String
  kind : String
  content : String
  now : Nat
  deriving Repr, DecidableEq

namespace MemoryService

/-- The per-user short-term stores (the stmStorage Map; a missing key reads
as the empty list). -/
def STMStore := String → List StoredSTMEntry

/-- The entry storeInSTM constructs from an operation. -/
def entryOf (op : STMOp) : StoredSTMEntry :=
  { kind := op.kind, content := op.content, timestamp := op.now
    expiresAt := op.now + sevenDaysMs }

/-- MemoryService.storeInSTM (src/unnamed/part_002 lines 9-27): push the new
entry onto the user list, then splice away all but the last 100 entries. -/
def storeInSTM (store : STMStore) (op : STMOp) : STMStore :=
  let userSTM := store op.userId ++ [entryOf op]
  let capped := if 100 < userSTM.length then userSTM.drop (userSTM.length - 100) else userSTM
  fun v => if v = op.userId then capped else store v

/-- A sequence of storeInSTM calls against an initially empty store. -/
def runSTMOps (ops : List STMOp) : STMStore :=
  ops.foldl storeInSTM (fun _ => [])

/-- The entries a sequence of operations appends for one user, oldest first. -/
def entriesFor (u : String) (ops : List STMOp) : List StoredSTMEntry :=
  (ops.filter (fun op => op.userId == u)).map entryOf

end MemoryService

/-! ## Orchestrator control flow
(src/backend/src/services/LangGraphOrchestrator.js, processQuery and
analyzeQuery) -/

/-- A JS runtime fault: a ReferenceError on an unresolvable identifier, or a
thrown Error carrying its message. -/
inductive JsError where
  | referenceError (ident : String)
  | thrown (message : String)
  deriving Repr, DecidableEq

/-- The identifiers visible in the body of LangGraphOrchestrator.analyzeQuery
(lines 108-119): its parameters, its local constants, this, the module-level
bindings of LangGraphOrchestrator.js (imports and the class itself), and the
JS globals the file refers to. The body evaluates state.query (line 112), and
state is not among these. -/
def analyzeQueryScopeNames : List String :=
  ["query", "userId", "queryLower", "keywords", "context", "this",
   "OllamaService", "ScenicAgent", "RiverAgent", "ParkAgent", "SearchAgent",
   "agentsConfig", "uuidv4", "LangGraphOrchestrator",
   "console", "Date", "Promise", "Map", "Math", "JSON", "Error", "Array"]

namespace LangGraphOrchestrator

/-- LangGraphOrchestrator.analyzeQuery (lines 108-119). Its first statement
evaluates state.query; resolving the identifier state against the scope above
fails, so every invocation raises a ReferenceError before the
memoryManager.getRelevantContext call. The branch taken when state were bound
is kept for structural fidelity: it would lower-case the query, split it into
keywords (both locals are unused in the source), fetch the user context and
return it. -/
def analyzeQuery (query userId : String) (io : MemoryManager.StoreIO) :
    Except JsError (List CtxEntry) :=
  if analyzeQueryScopeNames.contains "state" then
    let _queryLower := jsToLowerCase query
    let _keywords := (_queryLower.splitOn " ").filter (fun w => 2 < w.length)
    Except.ok (MemoryManager.getRelevantContext userId query io)
  else
    Except.error (JsError.referenceError "state")

/-- The external-world outcomes one processQuery call can observe: the
registry loaded into this.agents, the two possible context SELECT outcomes,
the Ollama outcome per agent id, and the storeQueryResult persistence
outcome. processQuery is modelled after initialization has completed. -/
structure OrchEnv where
  registry : List AgentConfig
  storeIO : MemoryManager.StoreIO
  genOutcome : String → BaseAgent.GenOutcome
  storeResult : Except String Unit

/-- LangGraphOrchestrator.processQuery (lines 79-106): analyze, route,
execute every routed agent (BaseAgent.execute never throws: its body is one
try/catch returning the degraded answer), aggregate, persist. The outer
try/catch rethrows, so an error from any step propagates to the caller
unchanged. -/
def processQuery (query userId sessionId : String) (env : OrchEnv) :
    Except JsError ConversationResult := do
  let context ← analyzeQuery query userId env.storeIO
  let relevantAgents := routeAgents env.registry query
  let responses := relevantAgents.map
    (fun ra => BaseAgent.execute ra.agent query (context.map CtxEntry.content)
      (env.genOutcome ra.agent.id))
  let result := aggregateResponses query userId sessionId responses
  match env.storeResult with
  | Except.ok _ => Except.ok result
  | Except.error m => Except.error (JsError.thrown m)

end LangGraphOrchestrator

/-! ## Concrete data for counterexamples and witnesses, and claim-side
definitions -/

/-- The retrospective-intent keywords of the spec (section 4.1); they coincide
with the keyword list of the search agent configuration. -/
def retroIntentKeywords : List String :=
  ["past", "history", "previous", "remember", "before", "earlier",
   "search", "find", "show me my"]

/-- The last n elements of a list (what the splice of storeInSTM keeps). -/
def takeLast (n : Nat) (l : List StoredSTMEntry) : List StoredSTMEntry :=
  l.drop (l.length - n)

/-- A custom registry entry: priority 5, inserted first. -/
def priorityDemoAlpha : AgentConfig :=
  { id := "alpha-agent", name := "Alpha", type := "alpha"
    keywords := ["foo"], priority := 5 }

/-- A custom registry entry: priority 1, inserted second. -/
def priorityDemoBeta : AgentConfig :=
  { id := "beta-agent", name := "Beta", type := "beta"
    keywords := ["foo"], priority := 1 }

/-- A necessary consequence, between adjacent output entries, of the ordering
claimed for the Router: descending relevanceScore, ties broken by ascending
priority (insertion order applies only to ties in both). Stated from the
claim, for comparison against the embedded routeAgents. -/
def specClaimedTieOrder (x y : RoutedAgent) : Prop :=
  y.relevanceScore < x.relevanceScore
  ∨ (y.relevanceScore = x.relevanceScore ∧ x.agent.priority ≤ y.agent.priority)

instance : DecidableRel specClaimedTieOrder := by
  unfold specClaimedTieOrder
  infer_instance

/-- An error-flagged answer with a relevanceScore above the successful
answer below, so the aggregation ranks it first if kept. (The aggregation
step accepts any batch; answers built by the execute catch branch itself
carry relevanceScore 1.) -/
def demoErrorAnswer : AgentResponse :=
  { agentId := "river-agent", agentName := "River Agent"
    response := BaseAgent.fallbackResponseText riverAgentConfig
    confidence := 1/10, relevanceScore := 3
    error := some "Ollama connection refused" }

/-- A successful answer with a lower relevanceScore than demoErrorAnswer. -/
def demoOkAnswer : AgentResponse :=
  { agentId := "park-agent", agentName := "Park Agent"
    response := "Cubbon Park in Bangalore is a green oasis in the heart of the city."
    confidence := 4/5, relevanceScore := 2, error := none }

/-- An environment whose context SELECTs fail (the MemoryStore is down for
reads) while agents and persistence are healthy: the configuration under
which the spec expects a normal completion with empty context. -/
def demoFetchFailEnv : LangGraphOrchestrator.OrchEnv :=
  { registry := defaultAgents
    storeIO := { recentRows := Except.error "MySQL connection lost"
                 keywordRows := Except.error "MySQL connection lost" }
    genOutcome := fun _ =>
      Except.ok "The Nilgiri Hills offer panoramic views of rolling tea gardens."
    storeResult := Except.ok () }

/-- 101 short-term writes for one user, in timestamp order. -/
def capDemoOps : List STMOp :=
  (List.range 101).map
    (fun i => { userId := "user-1", kind := "query", content := "parks", now := i })

/-! ## Supporting lemmas -/

theorem takeLast_of_le {n : Nat} {l : List StoredSTMEntry} (h : l.length ≤ n) :
    takeLast n l = l := by
  unfold takeLast
  have : l.length - n = 0 := by omega
  simp [this]

theorem length_takeLast (n : Nat) (l : List StoredSTMEntry) :
    (takeLast n l).length = min n l.length := by
  unfold takeLast
  simp [List.length_drop]
  omega

theorem takeLast_suffix (n : Nat) (l : List StoredSTMEntry) : takeLast n l <:+ l := by
  unfold takeLast
  exact List.drop_suffix _ _

theorem takeLast_eq_of_suffix {n : Nat} {s t : List StoredSTMEntry}
    (h : s <:+ t) (hn : n ≤ s.length) : takeLast n s = takeLast n t := by
  obtain ⟨u, rfl⟩ := h
  unfold takeLast
  have hlen : (u ++ s).length = u.length + s.length := by simp
  rw [hlen]
  have hidx : u.length + s.length - n = u.length + (s.length - n) := by omega
  rw [hidx]
  rw [List.drop_append]

theorem takeLast_takeLast_append (n : Nat) (l r : List StoredSTMEntry) :
    takeLast n (takeLast n l ++ r) = takeLast n (l ++ r) := by
  by_cases h : l.length ≤ n
  · rw [takeLast_of_le h]
  · have hs : takeLast n l ++ r <:+ l ++ r := by
      obtain ⟨u, hu⟩ := takeLast_suffix n l
      exact ⟨u, by rw [← List.append_assoc, hu]⟩
    have hn : n ≤ (takeLast n l ++ r).length := by
      rw [List.length_append, length_takeLast]
      omega
    exact takeLast_eq_of_suffix hs hn

namespace MemoryService

/-- The capped push of storeInSTM keeps exactly the last 100 entries. -/
theorem storeInSTM_apply (store : STMStore) (op : STMOp) (u : String) :
    storeInSTM store op u =
      if u = op.userId then takeLast 100 (store op.userId ++ [entryOf op])
      else store u := by
  unfold storeInSTM
  have cap : ∀ l : List StoredSTMEntry,
      (if 100 < l.length then l.drop (l.length - 100) else l) = takeLast 100 l := by
    intro l
    by_cases h : 100 < l.length
    · simp [h, takeLast]
    · rw [if_neg h, takeLast_of_le (by omega : l.length ≤ 100)]
  simp only [cap]

/-- Running writes from any store whose per-user lists respect the cap leaves,
for each user, the last 100 of that user history. -/
theorem foldl_storeInSTM (ops : List STMOp) :
    ∀ store : STMStore, (∀ v, (store v).length ≤ 100) →
      ∀ u, (ops.foldl storeInSTM store) u = takeLast 100 (store u ++ entriesFor u ops) := by
  induction ops with
  | nil =>
      intro store hstore u
      simp [entriesFor]
      exact (takeLast_of_le (hstore u)).symm
  | cons op rest ih =>
      intro store hstore u
      have hstore' : ∀ v, ((storeInSTM store op) v).length ≤ 100 := by
        intro v
        rw [storeInSTM_apply]
        split
        · rw [length_takeLast]; omega
        · exact hstore v
      rw [List.foldl_cons, ih (storeInSTM store op) hstore' u]
      by_cases hu : u = op.userId
      · subst hu
        rw [storeInSTM_apply, if_pos rfl]
        have hfor : entriesFor op.userId (op :: rest)
            = entryOf op :: entriesFor op.userId rest := by
          simp [entriesFor, List.filter_cons]
        rw [hfor, takeLast_takeLast_append]
        simp
      · rw [storeInSTM_apply, if_neg hu]
        have hne : (op.userId == u) = false := by
          simp only [beq_eq_false_iff_ne, ne_eq]
          exact fun hc => hu hc.symm
        have hfor : entriesFor u (op :: rest) = entriesFor u rest := by
          simp [entriesFor, List.filter_cons, hne]
        rw [hfor]

end MemoryService

/-- A calculated relevance score is at least 1 (the clamp into 1..10). -/
theorem one_le_calculateRelevanceScore (cfg : AgentConfig) (q : String) :
    1 ≤ BaseAgent.calculateRelevanceScore cfg q := by
  unfold BaseAgent.calculateRelevanceScore
  simp only [Nat.le_min]
  exact ⟨le_max_right _ _, by norm_num⟩

/-! ## Claim theorems -/

/-- C1, counterexample. The claim says an error-flagged answer is removed by
the aggregation whenever at least one non-error answer exists in the batch.
Concrete batch: one error-flagged answer and one successful answer. The batch
does contain a non-error answer, yet the aggregated ConversationResult still
contains an error-flagged answer, and in fact keeps both answers. -/
theorem C1_error_answer_survives :
    ([demoErrorAnswer, demoOkAnswer].any (fun r => r.error.isNone)) = true
    ∧ ((LangGraphOrchestrator.aggregateResponses "parks or rivers" "user-1" "session-1"
        [demoErrorAnswer, demoOkAnswer]).responses.any (fun r => r.error.isSome)) = true
    ∧ (LangGraphOrchestrator.aggregateResponses "parks or rivers" "user-1" "session-1"
        [demoErrorAnswer, demoOkAnswer]).responses.length = 2 :=
  ⟨by decide, by decide, by decide⟩

/-- C1, amended: the aggregation step never filters any answer, error-flagged
or not: the responses of the ConversationResult are a permutation of the
batch containing every batch answer, sorted by relevanceScore descending with
ties kept in the incoming (Router) order. -/
theorem C1_aggregation_keeps_all_and_sorts (query userId sessionId : String)
    (responses : List AgentResponse) :
    ((LangGraphOrchestrator.aggregateResponses query userId sessionId responses).responses).Perm responses
    ∧ List.Sorted (byScoreDesc AgentResponse.relevanceScore)
        (LangGraphOrchestrator.aggregateResponses query userId sessionId responses).responses
    ∧ (∀ r ∈ responses,
        r ∈ (LangGraphOrchestrator.aggregateResponses query userId sessionId responses).responses)
    ∧ (∀ x y : AgentResponse, List.Sublist [x, y] responses →
        y.relevanceScore ≤ x.relevanceScore →
        List.Sublist [x, y]
          ((LangGraphOrchestrator.aggregateResponses query userId sessionId responses).responses)) := by
  refine ⟨?_, ?_, ?_, ?_⟩
  · exact List.perm_insertionSort _ _
  · exact List.sorted_insertionSort _ _
  · intro r hr
    exact (List.perm_insertionSort _ _).mem_iff.mpr hr
  · intro x y hsub hscore
    exact List.pair_sublist_insertionSort hscore hsub

/-- C2, counterexample. The claim says the degraded answer always carries a
non-empty error message. When the content-generation dependency throws an
error whose message is the empty string, execute copies that message
verbatim: the error field is set to the empty string. Confidence and
relevanceScore still take the claimed values. -/
theorem C2_empty_error_message :
    (BaseAgent.execute parkAgentConfig "parks near me" [] (Except.error "")).confidence = 1/10
    ∧ (BaseAgent.execute parkAgentConfig "parks near me" [] (Except.error "")).relevanceScore = 1
    ∧ (BaseAgent.execute parkAgentConfig "parks near me" [] (Except.error "")).error = some ""
    ∧ ("" : String).length = 0 :=
  ⟨rfl, rfl, rfl, rfl⟩

/-- C2, amended: whenever the content-generation dependency raises, execute
returns (rather than rethrows) an answer with confidence exactly 0.1,
relevanceScore exactly 1, and the error field set to exactly the raised
message, hence non-empty whenever that message is non-empty. -/
theorem C2_degraded_answer_fields (cfg : AgentConfig) (query : String)
    (context : List String) (msg : String) :
    (BaseAgent.execute cfg query context (Except.error msg)).confidence = 1/10
    ∧ (BaseAgent.execute cfg query context (Except.error msg)).relevanceScore = 1
    ∧ (BaseAgent.execute cfg query context (Except.error msg)).error = some msg :=
  ⟨rfl, rfl, rfl⟩

/-- C3, counterexample. Two agents share the keyword foo; for the query
foo tour both score 1. The first-inserted has priority 5 and the
second-inserted priority 1; the claimed order (ties broken by ascending
priority) would put the priority-1 agent first, but routeAgents keeps
insertion order: priority is never consulted, so the output violates the
claimed adjacent-pair ordering. -/
theorem C3_priority_ignored :
    LangGraphOrchestrator.routeAgents [priorityDemoAlpha, priorityDemoBeta] "foo tour"
      = [{ agent := priorityDemoAlpha, relevanceScore := 1 },
         { agent := priorityDemoBeta, relevanceScore := 1 }]
    ∧ priorityDemoBeta.priority < priorityDemoAlpha.priority
    ∧ ¬ List.Pairwise specClaimedTieOrder
        (LangGraphOrchestrator.routeAgents [priorityDemoAlpha, priorityDemoBeta] "foo tour") :=
  ⟨by decide, by decide, by decide⟩

/-- C3, amended: the Router output is the stable sort of its selection list,
descending by relevanceScore, with ties kept in the order the Router
assembled the selection: matched agents in registry insertion order, then
the force-appended search agent, or the scenic fallback alone. Ties between
a matched agent and the force-appended search agent therefore need not
follow registry insertion order, and the priority field is not consulted.
Repeated calls on the same query and registry are identical (the function is
deterministic, shown by the sorted and stability clauses characterizing the
output uniquely from the inputs). -/
theorem C3_route_order_stable_sort (registry : List AgentConfig) (query : String) :
    List.Sorted (byScoreDesc RoutedAgent.relevanceScore)
      (LangGraphOrchestrator.routeAgents registry query)
    ∧ (LangGraphOrchestrator.routeAgents registry query).Perm
        (LangGraphOrchestrator.selectAgents registry query)
    ∧ (∀ x y : RoutedAgent,
        List.Sublist [x, y] (LangGraphOrchestrator.selectAgents registry query) →
        y.relevanceScore ≤ x.relevanceScore →
        List.Sublist [x, y] (LangGraphOrchestrator.routeAgents registry query)) := by
  refine ⟨?_, ?_, ?_⟩
  · exact List.sorted_insertionSort _ _
  · exact List.perm_insertionSort _ _
  · intro x y hsub hscore
    exact List.pair_sublist_insertionSort hscore hsub

/-- C4: for a query whose lower-cased text contains remember or past, and a
registry containing the search agent, the Router output includes the search
agent with score at least 1. (The code includes it for every query whenever
it is registered; the keyword hypothesis of the claim is not even needed.) -/
theorem C4_search_agent_always_included (registry : List AgentConfig) (query : String)
    (_hq : jsIncludes (jsToLowerCase query) "remember" = true
        ∨ jsIncludes (jsToLowerCase query) "past" = true)
    (hs : ∃ sa ∈ registry, sa.id = "search-agent") :
    ∃ ra ∈ LangGraphOrchestrator.routeAgents registry query,
      ra.agent.id = "search-agent" ∧ 1 ≤ ra.relevanceScore := by
  have hmem : ∀ ra, ra ∈ LangGraphOrchestrator.selectAgents registry query →
      ra ∈ LangGraphOrchestrator.routeAgents registry query := by
    intro ra hra
    unfold LangGraphOrchestrator.routeAgents
    exact (List.perm_insertionSort _ _).mem_iff.mpr hra
  suffices h : ∃ ra ∈ LangGraphOrchestrator.selectAgents registry query,
      ra.agent.id = "search-agent" ∧ 1 ≤ ra.relevanceScore by
    obtain ⟨ra, hra, hp⟩ := h
    exact ⟨ra, hmem ra hra, hp⟩
  simp only [LangGraphOrchestrator.selectAgents]
  obtain ⟨sa, hsa, hid⟩ := hs
  have hfind : ∃ sa', registry.find? (fun a => a.id == "search-agent") = some sa' := by
    have : (registry.find? (fun a => a.id == "search-agent")).isSome := by
      rw [List.find?_isSome]
      exact ⟨sa, hsa, by simp [hid]⟩
    exact Option.isSome_iff_exists.mp this
  obtain ⟨sa', hfind⟩ := hfind
  have hid' : sa'.id = "search-agent" := by
    have := List.find?_some hfind
    simpa using this
  simp only [hfind]
  set matched := (registry.filter (fun a => BaseAgent.isRelevant a query)).map
    (fun a => ({ agent := a, relevanceScore := BaseAgent.calculateRelevanceScore a query } : RoutedAgent))
    with hmatched
  by_cases hany : matched.any (fun ra => ra.agent.id == "search-agent")
  · rw [if_pos hany]
    obtain ⟨ra, hra, hraid⟩ := List.any_eq_true.mp hany
    have hscore : 1 ≤ ra.relevanceScore := by
      rw [hmatched] at hra
      obtain ⟨a, _, rfl⟩ := List.mem_map.mp hra
      exact one_le_calculateRelevanceScore a query
    have hnonempty : ¬ matched.isEmpty := by
      intro hemp
      rw [List.isEmpty_iff] at hemp
      rw [hemp] at hra
      exact absurd hra (List.not_mem_nil ra)
    rw [if_neg hnonempty]
    exact ⟨ra, hra, by simpa using hraid, hscore⟩
  · rw [if_neg hany]
    have hnonempty :
        ¬ (matched ++ [({ agent := sa', relevanceScore := 1 } : RoutedAgent)]).isEmpty := by
      simp
    rw [if_neg hnonempty]
    refine ⟨{ agent := sa', relevanceScore := 1 }, ?_, hid', le_refl 1⟩
    simp

/-- C4, witness at the default registry and the query remember my past trips. -/
theorem C4_search_agent_always_included_witness :
    (jsIncludes (jsToLowerCase "remember my past trips") "remember" = true
      ∨ jsIncludes (jsToLowerCase "remember my past trips") "past" = true)
    ∧ (∃ sa ∈ defaultAgents, sa.id = "search-agent")
    ∧ ∃ ra ∈ LangGraphOrchestrator.routeAgents defaultAgents "remember my past trips",
        ra.agent.id = "search-agent" ∧ 1 ≤ ra.relevanceScore :=
  ⟨by decide, by decide,
    C4_search_agent_always_included defaultAgents "remember my past trips"
      (by decide) (by decide)⟩

/-- C5, counterexample. A non-empty registry holding only the river agent, and
the query hello: no keyword of any registered agent matches, no
retrospective-intent keyword occurs, yet the Router returns the empty list:
the force-include looks up the id search-agent and the default fallback the
id scenic-agent, and neither is registered, so no default responder is
selected and the output is empty. -/
theorem C5_router_can_return_empty :
    ([riverAgentConfig].all (fun a => !(BaseAgent.isRelevant a "hello"))) = true
    ∧ (retroIntentKeywords.all (fun k => !(jsIncludes (jsToLowerCase "hello") k))) = true
    ∧ ([riverAgentConfig] : List AgentConfig).length = 1
    ∧ LangGraphOrchestrator.routeAgents [riverAgentConfig] "hello" = [] :=
  ⟨by decide, by decide, by decide, by decide⟩

/-- C5, amended: when no registered agent is relevant to the query (no keyword
or topic-type match; retrospective-intent keywords play no role in this
code path), the Router returns exactly the registered search agent with score
1 if one is registered under id search-agent, otherwise exactly the
registered scenic agent with score 1 if one is registered under id
scenic-agent, otherwise the empty list: the output can be empty even over a
non-empty registry. -/
theorem C5_no_match_fallback (registry : List AgentConfig) (query : String)
    (hmatch : ∀ a ∈ registry, BaseAgent.isRelevant a query = false)
    (_hretro : ∀ k ∈ retroIntentKeywords, jsIncludes (jsToLowerCase query) k = false) :
    LangGraphOrchestrator.routeAgents registry query =
      match registry.find? (fun a => a.id == "search-agent") with
      | some sa => [{ agent := sa, relevanceScore := 1 }]
      | none =>
        match registry.find? (fun a => a.id == "scenic-agent") with
        | some sc => [{ agent := sc, relevanceScore := 1 }]
        | none => [] := by
  have hfilter : registry.filter (fun a => BaseAgent.isRelevant a query) = [] :=
    List.filter_eq_nil_iff.mpr (by intro a ha; simp [hmatch a ha])
  unfold LangGraphOrchestrator.routeAgents
  simp only [LangGraphOrchestrator.selectAgents, hfilter, List.map_nil]
  cases hfind : registry.find? (fun a => a.id == "search-agent") with
  | some sa =>
      simp [List.insertionSort]
  | none =>
      cases hfind2 : registry.find? (fun a => a.id == "scenic-agent") with
      | some sc => simp [List.insertionSort]
      | none => simp [List.insertionSort]

/-- C5, witness: registry of river and search agents, query hello — nothing
matches and the search agent alone is returned with score 1. -/
theorem C5_no_match_fallback_witness :
    (∀ a ∈ [riverAgentConfig, searchAgentConfig], BaseAgent.isRelevant a "hello" = false)
    ∧ (∀ k ∈ retroIntentKeywords, jsIncludes (jsToLowerCase "hello") k = false)
    ∧ LangGraphOrchestrator.routeAgents [riverAgentConfig, searchAgentConfig] "hello"
        = [{ agent := searchAgentConfig, relevanceScore := 1 }] :=
  ⟨by decide, by decide,
    C5_no_match_fallback [riverAgentConfig, searchAgentConfig] "hello"
      (by decide) (by decide)⟩

/-- C6: after a sequence of storeInSTM calls that appends more than 100
entries for a user, the short-term store holds exactly 100 entries for that
user, and they are exactly the most recently appended ones (the suffix of
the per-user append history of length 100). -/
theorem C6_stm_capped_at_100 (ops : List STMOp) (u : String)
    (h : 100 < (MemoryService.entriesFor u ops).length) :
    MemoryService.runSTMOps ops u
      = (MemoryService.entriesFor u ops).drop ((MemoryService.entriesFor u ops).length - 100)
    ∧ (MemoryService.runSTMOps ops u).length = 100 := by
  have hrun : MemoryService.runSTMOps ops u = takeLast 100 (MemoryService.entriesFor u ops) := by
    unfold MemoryService.runSTMOps
    rw [MemoryService.foldl_storeInSTM ops (fun _ => []) (by intro v; simp) u]
    simp
  constructor
  · rw [hrun]; rfl
  · rw [hrun, length_takeLast]; omega

/-- C6, witness: 101 writes for one user leave exactly the last 100. -/
theorem C6_stm_capped_at_100_witness :
    100 < (MemoryService.entriesFor "user-1" capDemoOps).length
    ∧ (MemoryService.runSTMOps capDemoOps "user-1"
        = (MemoryService.entriesFor "user-1" capDemoOps).drop
            ((MemoryService.entriesFor "user-1" capDemoOps).length - 100)
      ∧ (MemoryService.runSTMOps capDemoOps "user-1").length = 100) :=
  ⟨by decide, C6_stm_capped_at_100 capDemoOps "user-1" (by decide)⟩

/-- C7: after deleteUserData, getMemoryStats reports zero short-term entries,
zero long-term entries and zero conversations for that user, and no row owned
by the user survives in any of the four tables. -/
theorem C7_delete_then_stats_zero (db : Database) (userId : String) (now : Nat) :
    (MemoryManager.getMemoryStats (MemoryManager.deleteUserData db userId) userId now).stm.totalEntries = 0
    ∧ (MemoryManager.getMemoryStats (MemoryManager.deleteUserData db userId) userId now).ltm.totalEntries = 0
    ∧ (MemoryManager.getMemoryStats (MemoryManager.deleteUserData db userId) userId now).conversations.total = 0
    ∧ ((MemoryManager.deleteUserData db userId).memoryEntries.countP (fun r => r.userId == userId)) = 0
    ∧ ((MemoryManager.deleteUserData db userId).conversations.countP (fun c => c.userId == userId)) = 0
    ∧ ((MemoryManager.deleteUserData db userId).agentInteractions.countP (fun i => i.userId == userId)) = 0
    ∧ ((MemoryManager.deleteUserData db userId).userSessions.countP (fun s => s.userId == userId)) = 0 := by
  unfold MemoryManager.getMemoryStats MemoryManager.deleteUserData
  refine ⟨?_, ?_, ?_, ?_, ?_, ?_, ?_⟩ <;>
    simp [List.filter_filter, List.countP_eq_zero, List.mem_filter] <;>
    intro x hx hc <;> (intro _; exact hc)

/-- C8: the confidence of a topical responder equals the base 0.6, plus 0.05
per matched keyword, plus 0.1 for a text over 200 characters, plus a further
0.1 over 500 characters, plus 0.1 for a specificity marker, capped at 1.0
and floored at 0.1; in particular it always lies in the interval 0.1 to 1. -/
theorem C8_confidence_formula (cfg : AgentConfig) (query response : String) :
    BaseAgent.calculateConfidence cfg query response
      = min (max (6/10 + ((BaseAgent.matchedKeywords cfg query).length : Rat) * (5/100)
          + (if 200 < response.length then (1 : Rat)/10 else 0)
          + (if 500 < response.length then (1 : Rat)/10 else 0)
          + (if BaseAgent.hasSpecificity response then (1 : Rat)/10 else 0)) ((1 : Rat)/10)) 1
    ∧ (1 : Rat)/10 ≤ BaseAgent.calculateConfidence cfg query response
    ∧ BaseAgent.calculateConfidence cfg query response ≤ 1 := by
  unfold BaseAgent.calculateConfidence
  refine ⟨?_, ?_, ?_⟩
  · split_ifs <;> ring_nf
  · apply le_min
    · exact le_max_right _ _
    · norm_num
  · exact min_le_right _ _

/-- C9: the half of the claim about the MemoryStore holds — a failing context
SELECT is absorbed inside getRelevantContext, which returns the empty context
list for every user and query, whichever branch runs. But the request does
not then complete normally: at the concrete failing input below (context
SELECTs down, agents and persistence healthy), processQuery raises the
ReferenceError of analyzeQuery before the context fetch is even consulted,
so no ConversationResult is ever produced. -/
theorem C9_context_fetch_nonfatal_but_request_crashes :
    (∀ userId query e₁ e₂ : String,
      MemoryManager.getRelevantContext userId query
        { recentRows := Except.error e₁, keywordRows := Except.error e₂ } = [])
    ∧ LangGraphOrchestrator.processQuery "hello" "user-1" "session-1" demoFetchFailEnv
        = Except.error (JsError.referenceError "state") := by
  constructor
  · intro userId query e₁ e₂
    by_cases hk : (((jsToLowerCase query).splitOn " ").filter (fun w => 2 < w.length)).isEmpty
    · simp [MemoryManager.getRelevantContext, hk]
    · simp [MemoryManager.getRelevantContext, hk]
  · rfl

/-- C10: the identifier state is not in scope in analyzeQuery, so analyzeQuery
raises a ReferenceError on every invocation, for every context-fetch oracle
(the fetch is never reached), and processQuery propagates that ReferenceError
for every query, user, session and environment: it never returns a
ConversationResult. -/
theorem C10_analyzeQuery_reference_error (query userId sessionId : String)
    (env : LangGraphOrchestrator.OrchEnv) :
    analyzeQueryScopeNames.contains "state" = false
    ∧ (∀ io : MemoryManager.StoreIO,
        LangGraphOrchestrator.analyzeQuery query userId io
          = Except.error (JsError.referenceError "state"))
    ∧ LangGraphOrchestrator.processQuery query userId sessionId env
        = Except.error (JsError.referenceError "state") :=
  ⟨rfl, fun _ => rfl, rfl⟩
